import Mathlib

set_option linter.unusedVariables false

/-! Shallow embedding of the labby/labctl lab-instrument controller:
the per-port serial arbitrator (src/labby/hw/core/serial.py), the typed
request/response server (src/labby/server.py), and device creation
(src/labby/hw/core/__init__.py, src/labctl/hw/core.py). Python byte strings
are modelled as `List Nat`, Python exceptions as the `PyErr` type, fallible
Python code as `Except PyErr`. -/

/-- Python exception values raised or stored by the embedded code. The
constructors `unknownDriverError` and `configValidationError` model exception
classes that the specification names; no class of either name exists anywhere
in the source, so they can never be produced by the embedded code. -/
inductive PyErr where
  | typeError : PyErr
  | keyError : String → PyErr
  | valueError : String → PyErr
  | unicodeDecodeError : PyErr
  | assertionError : String → PyErr
  | systemExit : PyErr
  | serialException : String → PyErr
  | unknownDriverError : String → PyErr
  | configValidationError : String → PyErr
  deriving DecidableEq, Repr

deriving instance DecidableEq for Except

/-- Python `except Exception` catches every exception class except direct
`BaseException` subclasses such as `SystemExit` (raised by `sys.exit`). -/
def PyErr.isException : PyErr → Bool
  | .systemExit => false
  | _ => true

/-- serial.py `SerialControllerJobPriority` (HIGH = 0, LOW = 10). The Python
class is a plain `Enum`: members support `==` but `<` raises `TypeError`. -/
inductive Priority where
  | HIGH
  | LOW
  deriving DecidableEq, Repr

/-- The numeric enum values (never consulted by a comparison in the source,
because plain `Enum` members are unordered). -/
def Priority.value : Priority → Nat
  | .HIGH => 0
  | .LOW => 10

/-- serial.py `SerialControllerJobType`. -/
inductive JobType where
  | WRITE
  | QUERY
  | CLOSE
  deriving DecidableEq, Repr

/-- serial.py `SerialControllerJob`. The `condition` field is a pure
synchronization handle and is omitted; the `uuid` string is modelled as a
`Nat`. In the source dataclass every field except `priority` is declared
`compare=False`. -/
structure SerialControllerJob where
  uuid : Nat
  type : JobType
  message : List Nat := []
  priority : Priority := .LOW
  deriving DecidableEq, Repr

instance : Inhabited SerialControllerJob :=
  ⟨{ uuid := 0, type := JobType.WRITE }⟩

/-- The `__lt__` generated by `@dataclass(order=True)` on
`SerialControllerJob`: it compares the tuples of `compare=True` fields, that
is `(self.priority,) < (other.priority,)`. Python tuple comparison yields
`False` when the members compare equal, and otherwise falls through to `<` on
the two enum members, which raises `TypeError` because
`SerialControllerJobPriority` is a plain unordered `Enum`. -/
def jobLt (a b : SerialControllerJob) : Except PyErr Bool :=
  if a.priority = b.priority then .ok false else .error .typeError

/-! CPython `heapq` as used by `queue.PriorityQueue` (`put` is `heappush`,
`get` is `heappop`). The sift loops are written with an explicit fuel
argument so that they are structurally recursive; the wrappers supply fuel
that provably exceeds the number of iterations (`_siftdown` strictly
decreases `pos`, `_siftup` strictly increases `pos` below `endpos`), so the
fuel-exhausted branches are unreachable and the functions compute exactly the
CPython loops. -/

/-- Loop of CPython heapq `_siftdown`: walk `pos` toward `startpos`, moving
each parent that compares greater than `newitem` down. Returns the updated
list and the final position. -/
def siftdownLoop (newitem : SerialControllerJob) (startpos : Nat) :
    Nat → List SerialControllerJob → Nat →
    Except PyErr (List SerialControllerJob × Nat)
  | 0, heap, pos => .ok (heap, pos)
  | fuel + 1, heap, pos =>
    if startpos < pos then
      let parentpos := (pos - 1) / 2
      let parent := heap.getD parentpos default
      match jobLt newitem parent with
      | .error e => .error e
      | .ok true => siftdownLoop newitem startpos fuel (heap.set pos parent) parentpos
      | .ok false => .ok (heap, pos)
    else
      .ok (heap, pos)

/-- CPython heapq `_siftdown(heap, startpos, pos)`. -/
def siftdown (heap : List SerialControllerJob) (startpos pos : Nat) :
    Except PyErr (List SerialControllerJob) :=
  let newitem := heap.getD pos default
  match siftdownLoop newitem startpos pos heap pos with
  | .error e => .error e
  | .ok (h2, p2) => .ok (h2.set p2 newitem)

/-- Loop of CPython heapq `_siftup`: bubble the hole at `pos` down to a leaf,
always moving the smaller child up; `not c < r` selects the right child when
the two compare equal or the right is smaller. -/
def siftupLoop (endpos : Nat) :
    Nat → List SerialControllerJob → Nat →
    Except PyErr (List SerialControllerJob × Nat)
  | 0, heap, pos => .ok (heap, pos)
  | fuel + 1, heap, pos =>
    let childpos := 2 * pos + 1
    if childpos < endpos then
      let step : Except PyErr Nat :=
        if childpos + 1 < endpos then
          match jobLt (heap.getD childpos default) (heap.getD (childpos + 1) default) with
          | .error e => .error e
          | .ok b => .ok (if b then childpos else childpos + 1)
        else .ok childpos
      match step with
      | .error e => .error e
      | .ok c => siftupLoop endpos fuel (heap.set pos (heap.getD c default)) c
    else
      .ok (heap, pos)

/-- CPython heapq `_siftup(heap, pos)`: run the bubble-down loop, place
`newitem` at the final hole, then `_siftdown` from the original position. -/
def siftup (heap : List SerialControllerJob) (pos : Nat) :
    Except PyErr (List SerialControllerJob) :=
  let endpos := heap.length
  let newitem := heap.getD pos default
  match siftupLoop endpos endpos heap pos with
  | .error e => .error e
  | .ok (h2, p2) => siftdown (h2.set p2 newitem) pos p2

/-- CPython heapq `heappush`: append, then sift the new item toward the
root. -/
def heappush (heap : List SerialControllerJob) (item : SerialControllerJob) :
    Except PyErr (List SerialControllerJob) :=
  siftdown (heap ++ [item]) 0 heap.length

/-- CPython heapq `heappop`: remove the last element; if the heap is still
nonempty, hand back the root, move the last element into the root slot and
sift it up. The worker never pops an empty queue (`queue.get` blocks),
modelled as `none`. -/
def heappop (heap : List SerialControllerJob) :
    Except PyErr (Option (SerialControllerJob × List SerialControllerJob)) :=
  match heap.getLast? with
  | none => .ok none
  | some lastelt =>
    let rest := heap.dropLast
    if rest.isEmpty then .ok (some (lastelt, []))
    else
      let returnitem := rest.getD 0 default
      match siftup (rest.set 0 lastelt) 0 with
      | .error e => .error e
      | .ok h2 => .ok (some (returnitem, h2))

/-- Push the given items in submission order (one `PriorityQueue.put` per
item). -/
def heapPushAll (heap : List SerialControllerJob) :
    List SerialControllerJob → Except PyErr (List SerialControllerJob)
  | [] => .ok heap
  | j :: rest =>
    match heappush heap j with
    | .error e => .error e
    | .ok h2 => heapPushAll h2 rest

/-- Pop repeatedly with fuel; each successful pop removes exactly one
element, so fuel equal to the heap size drains it completely. -/
def heapDrainFuel : Nat → List SerialControllerJob →
    Except PyErr (List SerialControllerJob)
  | 0, _ => .ok []
  | fuel + 1, heap =>
    match heappop heap with
    | .error e => .error e
    | .ok none => .ok []
    | .ok (some (j, h2)) =>
      match heapDrainFuel fuel h2 with
      | .error e => .error e
      | .ok js => .ok (j :: js)

/-- The dequeue order of a queue: pop until empty. -/
def heapDrain (heap : List SerialControllerJob) :
    Except PyErr (List SerialControllerJob) :=
  heapDrainFuel heap.length heap

/-- A LOW-priority WRITE job with the given id, as built by
`SerialController.write` (priority defaulted). -/
def lowJob (i : Nat) : SerialControllerJob :=
  { uuid := i, type := JobType.WRITE }

/-- A HIGH-priority WRITE job with the given id. -/
def highJob (i : Nat) : SerialControllerJob :=
  { uuid := i, type := JobType.WRITE, priority := Priority.HIGH }

/-! Association-list model of Python dicts (keys are unique because every
insertion goes through `alSet`). -/

/-- Python `d.get(k)` / `d[k]` lookup (the first binding wins). -/
def alGet {κ β : Type} [DecidableEq κ] : List (κ × β) → κ → Option β
  | [], _ => none
  | (k2, v) :: rest, k => if k2 = k then some v else alGet rest k

/-- Python `d[k] = v`: replace the binding of `k`, or append one. -/
def alSet {κ β : Type} [DecidableEq κ] : List (κ × β) → κ → β → List (κ × β)
  | [], k, v => [(k, v)]
  | (k2, v2) :: rest, k, v =>
    if k2 = k then (k, v) :: rest else (k2, v2) :: alSet rest k v

/-- Python `del d[k]` on a key known to be present: drop its binding. -/
def alErase {κ β : Type} [DecidableEq κ] : List (κ × β) → κ → List (κ × β)
  | [], _ => []
  | (k2, v2) :: rest, k => if k2 = k then rest else (k2, v2) :: alErase rest k

/-! Registry model: serial.py module globals `REGISTRY_LOCK` and
`SERIAL_CONTROLLERS`, plus the registry-visible state of each
`SerialController`. Everything below models the code as executed under the
registry lock, i.e. as one sequential interleaving. -/

/-- The registry-visible state of one `SerialController`: its port, its
`num_clients` counter (a Python int, so modelled as `Int`), and its thread
state (`started` by `Thread.start`, `finished` when `run` returns).
Controllers are identified by construction order `id`. -/
structure Controller where
  id : Nat
  port : String
  numClients : Int
  started : Bool
  finished : Bool
  deriving DecidableEq, Repr

/-- `threading.Thread.is_alive`: true from `start()` until `run()` returns.
A constructed but never-started thread is not alive. -/
def Controller.isAlive (c : Controller) : Bool := c.started && !c.finished

/-- The module-level `SERIAL_CONTROLLERS` dict (`registry`, port to
controller id) together with every controller constructed so far
(`controllers`, registered or not), so that process-wide statements can be
made about orphaned controllers too. -/
structure RegistryState where
  controllers : List Controller
  registry : List (String × Nat)
  nextId : Nat
  deriving DecidableEq, Repr

/-- State at module import: no controllers, empty dict. -/
def initRegistry : RegistryState := ⟨[], [], 0⟩

/-- Find a constructed controller by id. -/
def RegistryState.findCtrl (s : RegistryState) (cid : Nat) : Option Controller :=
  s.controllers.find? (fun c => c.id == cid)

/-- Mutate the controller object with the given id in place. -/
def RegistryState.updCtrl (s : RegistryState) (cid : Nat)
    (f : Controller → Controller) : RegistryState :=
  { s with controllers := s.controllers.map (fun c => if c.id = cid then f c else c) }

/-- The `else` branch of `SerialController.get_or_create`: construct a fresh
controller (`num_clients` starts at 0, thread not yet started) and register
it under the port, replacing any stale binding. -/
def constructAndRegister (s : RegistryState) (port : String) :
    Nat × RegistryState :=
  let c : Controller :=
    { id := s.nextId, port := port, numClients := 0
      started := false, finished := false }
  (s.nextId,
   { controllers := s.controllers ++ [c]
     registry := alSet s.registry port s.nextId
     nextId := s.nextId + 1 })

/-- serial.py `SerialController.get_or_create`: under `REGISTRY_LOCK`, if the
port is registered and the registered controller's thread is alive, reuse it;
otherwise construct and register a fresh one. Either way the resulting
controller's `num_clients` is incremented before returning. -/
def getOrCreate (s : RegistryState) (port : String) : Nat × RegistryState :=
  let pick : Nat × RegistryState :=
    match alGet s.registry port with
    | some cid =>
      match s.findCtrl cid with
      | some c => if c.isAlive then (cid, s) else constructAndRegister s port
      | none => constructAndRegister s port
    | none => constructAndRegister s port
  (pick.1,
   pick.2.updCtrl pick.1 (fun c => { c with numClients := c.numClients + 1 }))

/-- The controller-acquisition path of `SerialDevice.open`: `get_or_create`
followed by `if not serial_controller.is_alive(): serial_controller.start()`.
This is the specification's `acquire(port, transportConfig)` (the transport
configuration only parameterizes the constructed `Serial` object and plays no
role in registry bookkeeping, so it is omitted). -/
def acquire (s : RegistryState) (port : String) : Nat × RegistryState :=
  let r := getOrCreate s port
  match r.2.findCtrl r.1 with
  | some c =>
    if c.isAlive then r
    else (r.1, r.2.updCtrl r.1 (fun c2 => { c2 with started := true }))
  | none => r

/-- M successive acquires of the same port. -/
def acquireN (port : String) : Nat → RegistryState → RegistryState
  | 0, s => s
  | n + 1, s => acquireN port n (acquire s port).2

/-- The registry state holding exactly one controller for `port`: started,
not finished, `k` clients, registered under the port. -/
def soloState (port : String) (k : Int) : RegistryState :=
  ⟨[{ id := 0, port := port, numClients := k, started := true, finished := false }],
   [(port, 0)], 1⟩

/-- All live (started, unfinished) controllers ever constructed for a port. -/
def liveFor (s : RegistryState) (port : String) : List Controller :=
  s.controllers.filter (fun c => c.port == port && c.isAlive)

/-! Worker execution model: serial.py `SerialController._execute_job`,
`_read_result`, `run`, and the caller-side `write`/`query`/`close`. The
`serial.Serial` transport and the `fcntl.flock` OS lock are modelled by an
outcome oracle. -/

/-- Python `bytes.decode("utf-8")` (strict), on bytes as `List Nat`: decode
UTF-8, rejecting stray or missing continuation bytes, overlong encodings,
surrogates, and code points beyond U+10FFFF. -/
def utf8DecodeChars : List Nat → Option (List Char)
  | [] => some []
  | b :: rest =>
    if b < 0x80 then
      match utf8DecodeChars rest with
      | some cs => some (Char.ofNat b :: cs)
      | none => none
    else if b < 0xC2 then none
    else if b ≤ 0xDF then
      match rest with
      | c1 :: rest1 =>
        if 0x80 ≤ c1 ∧ c1 ≤ 0xBF then
          match utf8DecodeChars rest1 with
          | some cs => some (Char.ofNat ((b - 0xC0) * 64 + (c1 - 0x80)) :: cs)
          | none => none
        else none
      | [] => none
    else if b ≤ 0xEF then
      match rest with
      | c1 :: c2 :: rest2 =>
        if ((if b = 0xE0 then 0xA0 else 0x80) ≤ c1 ∧
            c1 ≤ (if b = 0xED then 0x9F else 0xBF)) ∧
            (0x80 ≤ c2 ∧ c2 ≤ 0xBF) then
          match utf8DecodeChars rest2 with
          | some cs =>
            some (Char.ofNat ((b - 0xE0) * 4096 + (c1 - 0x80) * 64 + (c2 - 0x80)) :: cs)
          | none => none
        else none
      | _ => none
    else if b ≤ 0xF4 then
      match rest with
      | c1 :: c2 :: c3 :: rest3 =>
        if ((if b = 0xF0 then 0x90 else 0x80) ≤ c1 ∧
            c1 ≤ (if b = 0xF4 then 0x8F else 0xBF)) ∧
            (0x80 ≤ c2 ∧ c2 ≤ 0xBF) ∧ (0x80 ≤ c3 ∧ c3 ≤ 0xBF) then
          match utf8DecodeChars rest3 with
          | some cs =>
            some (Char.ofNat ((b - 0xF0) * 262144 + (c1 - 0x80) * 4096 +
              (c2 - 0x80) * 64 + (c3 - 0x80)) :: cs)
          | none => none
        else none
      | _ => none
    else none

/-- Python `bytes.decode("utf-8")` returning the string or raising
`UnicodeDecodeError`. -/
def pyDecodeUtf8 (bs : List Nat) : Except PyErr String :=
  match utf8DecodeChars bs with
  | some cs => .ok (String.mk cs)
  | none => .error .unicodeDecodeError

/-- Python `line[:-2]`: drop exactly the last two bytes; fewer than two bytes
leave the empty byte string. This is the slice in serial.py
`self.serial.readline()[:-2]` (and in labctl core `SerialDevice._read_line`),
applied whether or not the line ends in CRLF. -/
def readlineSlice (line : List Nat) : List Nat := line.take (line.length - 2)

/-- Outcomes the `serial.Serial` transport and `fcntl.flock` would produce if
called while executing one job. -/
structure SerialBehavior where
  openResult : Except PyErr Unit
  flockResult : Except PyErr Unit
  writeResult : Except PyErr Unit
  readlineResult : Except PyErr (List Nat)
  deriving DecidableEq, Repr

/-- A stored entry of `job_results` (`Dict[str, Union[str, Exception]]`). -/
inductive JobResult where
  | str : String → JobResult
  | exc : PyErr → JobResult
  deriving DecidableEq, Repr

/-- The state a `SerialController` worker acts on: the shared registry (CLOSE
bookkeeping), the controller's identity, the `Serial` object's open flag, the
`job_results` dict, the log of byte strings written to the transport, and how
many times `serial.close()` has run. -/
structure ExecState where
  regState : RegistryState
  selfPort : String
  selfId : Nat
  serialOpen : Bool := false
  jobResults : List (Nat × JobResult) := []
  written : List (List Nat) := []
  closedCount : Nat := 0
  deriving DecidableEq, Repr

/-- Python `self.num_clients` of the worker's own controller (the controller
object always exists; 0 is returned in the unreachable missing case). -/
def ExecState.selfClients (st : ExecState) : Int :=
  match st.regState.findCtrl st.selfId with
  | some c => c.numClients
  | none => 0

/-- Python statement sequencing under try: run the continuation unless an
exception was already raised; state reached so far is kept either way. -/
def pyStep (r : ExecState × Option PyErr)
    (f : ExecState → ExecState × Option PyErr) : ExecState × Option PyErr :=
  match r with
  | (st, some e) => (st, some e)
  | (st, none) => f st

/-- The CLOSE branch of `_execute_job`: under `REGISTRY_LOCK`, decrement
`self.num_clients`; when it reaches zero, `del SERIAL_CONTROLLERS[self.port]`
(raising `KeyError` if the port is somehow absent). -/
def closePhase (st : ExecState) : ExecState × Option PyErr :=
  let st1 : ExecState :=
    { st with
      regState := st.regState.updCtrl st.selfId
        (fun c => { c with numClients := c.numClients - 1 }) }
  if st1.selfClients = 0 then
    if (alGet st1.regState.registry st.selfPort).isSome then
      ({ st1 with regState := { st1.regState with
          registry := alErase st1.regState.registry st.selfPort } }, none)
    else (st1, some (.keyError st.selfPort))
  else (st1, none)

/-- The lazy-open prologue of `_execute_job`: `if not self.serial.is_open:
self.serial.open(); fcntl.flock(self.serial, LOCK_EX | LOCK_NB)`. A
successful `open` marks the transport open even when the subsequent `flock`
fails. -/
def openPhase (beh : SerialBehavior) (st : ExecState) : ExecState × Option PyErr :=
  if st.serialOpen then (st, none)
  else
    match beh.openResult with
    | .error e => (st, some e)
    | .ok _ =>
      let stOp := { st with serialOpen := true }
      match beh.flockResult with
      | .error e => (stOp, some e)
      | .ok _ => (stOp, none)

/-- `self._write(message)`: `serial.write` (logged on success) followed by
the settle-delay sleep (a no-op here). -/
def writePhase (beh : SerialBehavior) (st : ExecState) (msg : List Nat) :
    ExecState × Option PyErr :=
  match beh.writeResult with
  | .error e => (st, some e)
  | .ok _ => ({ st with written := st.written ++ [msg] }, none)

/-- The read half of a QUERY: `self.serial.readline()[:-2].decode("utf-8")`
stored into `job_results[job.uuid]`. -/
def queryPhase (beh : SerialBehavior) (st : ExecState) (uuid : Nat) :
    ExecState × Option PyErr :=
  match beh.readlineResult with
  | .error e => (st, some e)
  | .ok line =>
    match pyDecodeUtf8 (readlineSlice line) with
    | .error e => (st, some e)
    | .ok s => ({ st with jobResults := alSet st.jobResults uuid (.str s) }, none)

/-- Body of serial.py `SerialController._execute_job` without its enclosing
try/except: returns the state reached and the exception raised, if any (side
effects made before an exception persist). CLOSE decrements
`self.num_clients` under the registry lock and deletes the registry entry
when the count reaches zero (`del` on an absent key raises `KeyError`).
Any other job first lazily opens the transport and takes the exclusive
non-blocking `flock`; WRITE writes the message bytes and sleeps for the
settle delay (a no-op here); QUERY writes the message bytes, reads one line,
strips the last two bytes, decodes as UTF-8, and stores the string under the
job's uuid. The straight-line Python is split into its phases below and
chained with `pyStep`, Python sequencing where an exception aborts the rest
of the block while keeping earlier side effects. -/
def executeJobBody (beh : SerialBehavior) (st : ExecState)
    (job : SerialControllerJob) : ExecState × Option PyErr :=
  if job.type = JobType.CLOSE then closePhase st
  else
    pyStep (openPhase beh st) (fun st1 =>
      pyStep (writePhase beh st1 job.message) (fun st2 =>
        if job.type = JobType.WRITE then (st2, none)
        else queryPhase beh st2 job.uuid))

/-- serial.py `SerialController._execute_job`: the body wrapped in
`try/except Exception as ex: self.job_results[job.uuid] = ex`. A raised
`Exception` is stored in the job's result slot and nothing propagates; a
`BaseException` such as `SystemExit` would escape (second component). -/
def executeJob (beh : SerialBehavior) (st : ExecState)
    (job : SerialControllerJob) : ExecState × Option PyErr :=
  match executeJobBody beh st job with
  | (st1, none) => (st1, none)
  | (st1, some e) =>
    if e.isException then
      ({ st1 with jobResults := alSet st1.jobResults job.uuid (.exc e) }, none)
    else (st1, some e)

/-- How `SerialController.run` terminated. -/
inductive WorkerExit where
  | finished
  | assertFailed
  | raised (e : PyErr)
  | starved
  deriving DecidableEq, Repr

/-- serial.py `SerialController.run` while-loop over the submitted jobs in
dequeue order, each paired with the transport outcomes its execution would
observe: while the port is registered in `SERIAL_CONTROLLERS`, take the next
job and execute it; once the condition fails, `assert self.job_queue.empty()`
(failing if jobs remain). `starved` marks the worker blocking forever in
`queue.get` with no job left; `raised` marks an exception escaping a job
(only a `BaseException` can). -/
def runWorkerLoop :
    List (SerialControllerJob × SerialBehavior) → ExecState →
    ExecState × WorkerExit
  | [], st =>
    if (alGet st.regState.registry st.selfPort).isSome then (st, .starved)
    else (st, .finished)
  | (j, beh) :: rest, st =>
    if (alGet st.regState.registry st.selfPort).isSome then
      match executeJob beh st j with
      | (st1, none) => runWorkerLoop rest st1
      | (st1, some e) => (st1, .raised e)
    else
      (st, .assertFailed)

/-- serial.py `SerialController.run`: the loop wrapped in
`try/finally: self.serial.close()`. On every path that exits the loop —
normal completion, failed assertion, escaped exception — the transport is
closed exactly once; only a worker blocked forever in `queue.get` never
reaches the `finally`. -/
def runWorker (jobs : List (SerialControllerJob × SerialBehavior))
    (st : ExecState) : ExecState × WorkerExit :=
  match runWorkerLoop jobs st with
  | (st1, .starved) => (st1, .starved)
  | (st1, ex) =>
    ({ st1 with serialOpen := false, closedCount := st1.closedCount + 1 }, ex)

/-- serial.py `SerialController._read_result` at `result_type=str` (the
`query` caller): fetch the slot, delete it (`del` with the `KeyError`
swallowed), return a stored string, re-raise a stored exception; an empty
slot fails the `assert isinstance(result, Exception)`. -/
def readResultStr (results : List (Nat × JobResult)) (uuid : Nat) :
    Except PyErr String × List (Nat × JobResult) :=
  let rest := alErase results uuid
  match alGet results uuid with
  | some (.str s) => (.ok s, rest)
  | some (.exc e) => (.error e, rest)
  | none => (.error (.assertionError ""), rest)

/-- serial.py `SerialController._read_result` at `result_type=type(None)`
(the `write` and `close` callers): an empty slot is success (`None` is an
instance of `NoneType`), a stored exception is re-raised, and a stored
string fails the `assert isinstance(result, Exception)`. -/
def readResultNone (results : List (Nat × JobResult)) (uuid : Nat) :
    Except PyErr Unit × List (Nat × JobResult) :=
  let rest := alErase results uuid
  match alGet results uuid with
  | none => (.ok (), rest)
  | some (.exc e) => (.error e, rest)
  | some (.str _) => (.error (.assertionError ""), rest)

/-- serial.py `SerialController.query` as seen by the calling thread once the
worker has executed its job: submit a QUERY job (LOW priority by default),
block, then `_read_result` with `result_type=str`. -/
def controllerQuery (beh : SerialBehavior) (st : ExecState) (uuid : Nat)
    (msg : List Nat) : Except PyErr String × ExecState :=
  let job : SerialControllerJob := { uuid := uuid, type := JobType.QUERY, message := msg }
  let st1 := (executeJob beh st job).1
  let r := readResultStr st1.jobResults uuid
  (r.1, { st1 with jobResults := r.2 })

/-- serial.py `SerialController.write` as seen by the calling thread: submit
a WRITE job, block, then `_read_result` with `result_type=type(None)`. -/
def controllerWrite (beh : SerialBehavior) (st : ExecState) (uuid : Nat)
    (msg : List Nat) : Except PyErr Unit × ExecState :=
  let job : SerialControllerJob := { uuid := uuid, type := JobType.WRITE, message := msg }
  let st1 := (executeJob beh st job).1
  let r := readResultNone st1.jobResults uuid
  (r.1, { st1 with jobResults := r.2 })

/-- serial.py `SerialController.close` as seen by the calling thread: submit
a CLOSE job, block, then `_read_result` with `result_type=type(None)`. -/
def controllerClose (beh : SerialBehavior) (st : ExecState) (uuid : Nat) :
    Except PyErr Unit × ExecState :=
  let job : SerialControllerJob := { uuid := uuid, type := JobType.CLOSE }
  let st1 := (executeJob beh st job).1
  let r := readResultNone st1.jobResults uuid
  (r.1, { st1 with jobResults := r.2 })

/-- A CLOSE job as built by `SerialController.close` (no message, LOW
priority; the uuid is irrelevant because a successful CLOSE stores no
result). -/
def closeJob : SerialControllerJob := { uuid := 0, type := JobType.CLOSE }

/-- Transport behavior in which every primitive succeeds and reads return an
empty line. -/
def idleBehavior : SerialBehavior :=
  { openResult := .ok (), flockResult := .ok ()
    writeResult := .ok (), readlineResult := .ok [] }

/-- Transport behavior in which every primitive succeeds and `readline`
returns the given line. -/
def lineBehavior (line : List Nat) : SerialBehavior :=
  { openResult := .ok (), flockResult := .ok ()
    writeResult := .ok (), readlineResult := .ok line }

/-- Transport behavior whose `serial.write` raises `e`. -/
def writeFailBehavior (e : PyErr) : SerialBehavior :=
  { openResult := .ok (), flockResult := .ok ()
    writeResult := .error e, readlineResult := .ok [] }

/-- Transport behavior whose `serial.readline` raises `e`. -/
def readFailBehavior (e : PyErr) : SerialBehavior :=
  { openResult := .ok (), flockResult := .ok ()
    writeResult := .ok (), readlineResult := .error e }

/-- Worker state for the single controller of `soloState p k`. -/
def soloExec (p : String) (k : Int) : ExecState :=
  { regState := soloState p k, selfPort := p, selfId := 0 }

/-- Worker state after the last CLOSE job: client count zero, the port's
registry entry deleted, the controller object still recorded. -/
def soloExecDone (p : String) : ExecState :=
  { regState :=
      ⟨[{ id := 0, port := p, numClients := 0, started := true, finished := false }],
       [], 1⟩
    selfPort := p, selfId := 0 }

/-! Device facade: serial.py `SerialDevice` (`_serial_controller` starts as
`None`; only `open` assigns it). -/

/-- serial.py `SerialDevice` state relevant to access control: the
`_serial_controller` attribute. -/
structure SerialDeviceState where
  ctrl : Option Nat
  deriving DecidableEq, Repr

/-- The message `pyre_extensions.none_throws` raises with in the
`serial_controller` property. -/
def notOpenMsg : String :=
  "Attempted to access SerialDevice without opening it first"

/-- serial.py `SerialDevice.serial_controller` property:
`none_throws(self._serial_controller, ...)` raises an `AssertionError` with
`notOpenMsg` when the device has never been opened. -/
def serialControllerProp (d : SerialDeviceState) : Except PyErr Nat :=
  match d.ctrl with
  | some cid => .ok cid
  | none => .error (.assertionError notOpenMsg)

/-- serial.py `SerialDevice._write`: resolve the `serial_controller`
property, then `SerialController.write`. On an unopened device the property
raises before any job is submitted, leaving the worker state untouched. -/
def deviceWrite (d : SerialDeviceState) (beh : SerialBehavior) (st : ExecState)
    (uuid : Nat) (msg : List Nat) : Except PyErr Unit × ExecState :=
  match serialControllerProp d with
  | .error e => (.error e, st)
  | .ok _ => controllerWrite beh st uuid msg

/-- serial.py `SerialDevice._query`: the property, then
`SerialController.query`. -/
def deviceQuery (d : SerialDeviceState) (beh : SerialBehavior) (st : ExecState)
    (uuid : Nat) (msg : List Nat) : Except PyErr String × ExecState :=
  match serialControllerProp d with
  | .error e => (.error e, st)
  | .ok _ => controllerQuery beh st uuid msg

/-- serial.py `SerialDevice.close`: the property, then
`SerialController.close`. -/
def deviceClose (d : SerialDeviceState) (beh : SerialBehavior) (st : ExecState)
    (uuid : Nat) : Except PyErr Unit × ExecState :=
  match serialControllerProp d with
  | .error e => (.error e, st)
  | .ok _ => controllerClose beh st uuid

/-! Server model: server.py request dispatch and the device-status
handlers. -/

/-- Python `type(ex).__name__` for the modelled exceptions. -/
def PyErr.typeName : PyErr → String
  | .typeError => "TypeError"
  | .keyError _ => "KeyError"
  | .valueError _ => "ValueError"
  | .unicodeDecodeError => "UnicodeDecodeError"
  | .assertionError _ => "AssertionError"
  | .systemExit => "SystemExit"
  | .serialException _ => "SerialException"
  | .unknownDriverError _ => "UnknownDriverError"
  | .configValidationError _ => "ConfigValidationError"

/-- Python `str(ex)` (representative message text). -/
def PyErr.msg : PyErr → String
  | .typeError => "unsupported operand"
  | .keyError s => s
  | .valueError s => s
  | .unicodeDecodeError => "invalid utf-8"
  | .assertionError s => s
  | .systemExit => "0"
  | .serialException s => s
  | .unknownDriverError s => s
  | .configValidationError s => s

/-- The server-side view of one configured device: its name and the outcome
each driver call would produce (`labby.hw.core.Device` is abstract; each
driver implements `open`, `test_connection`, `close`, and the power-supply
getters, abstracted to the joint outcome `psR`). -/
structure DeviceBeh where
  name : String
  openR : Except PyErr Unit
  testR : Except PyErr Unit
  closeR : Except PyErr Unit
  psR : Except PyErr Unit := .ok ()
  deriving DecidableEq, Repr

/-- `device.open()` then `device.test_connection()`. -/
def openThenTest (d : DeviceBeh) : Except PyErr Unit :=
  match d.openR with
  | .error e => .error e
  | .ok _ => d.testR

/-- server.py `DeviceStatus` response component. -/
structure DeviceStatus where
  name : String
  is_available : Bool
  error_type : Option String := none
  error_message : Option String := none
  deriving DecidableEq, Repr

/-- server.py `ListDevicesRequest._get_device_status`, with Python
try/except/finally semantics: the `except Exception` clause turns a failure
of `open`/`test_connection` into an unavailable status (a `BaseException`
passes through); the `finally` always runs `device.close()`, and an
exception raised there replaces any pending return value and propagates. -/
def getDeviceStatus (d : DeviceBeh) : Except PyErr DeviceStatus :=
  let tryPart : Except PyErr DeviceStatus :=
    match openThenTest d with
    | .ok _ => .ok { name := d.name, is_available := true }
    | .error e =>
      if e.isException then
        .ok { name := d.name, is_available := false
              error_type := some e.typeName, error_message := some e.msg }
      else .error e
  match d.closeR with
  | .error e2 => .error e2
  | .ok _ => tryPart

/-- The status `_get_device_status` produces when `device.close()` does not
raise: available on success, otherwise the caught failure of
`open`/`test_connection` as structured error fields. -/
def deviceStatusNoClose (d : DeviceBeh) : DeviceStatus :=
  match openThenTest d with
  | .ok _ => { name := d.name, is_available := true }
  | .error e =>
    { name := d.name, is_available := false
      error_type := some e.typeName, error_message := some e.msg }

/-- server.py `ListDevicesRequest.handle`: a list comprehension of
`_get_device_status` over `config.devices`; the first propagating per-device
exception aborts the whole comprehension. -/
def listDevicesHandle : List DeviceBeh → Except PyErr (List DeviceStatus)
  | [] => .ok []
  | d :: rest =>
    match getDeviceStatus d with
    | .error e => .error e
    | .ok s =>
      match listDevicesHandle rest with
      | .error e => .error e
      | .ok ss => .ok (s :: ss)

/-- server.py `DeviceInfoResponse`, with the float-valued
`power_supply_info` payload abstracted to its presence (no claim concerns its
numeric fields). -/
structure DeviceInfoResponse where
  is_connected : Bool
  has_device_type : Bool
  error_type : Option String := none
  error_message : Option String := none
  has_power_supply_info : Bool := false
  deriving DecidableEq, Repr

/-- server.py `DeviceInfoRequest._get_device_info`: `open`, then
`test_connection`, then collect the power-supply info (no close). -/
def deviceInfoProbe (d : DeviceBeh) : Except PyErr Unit :=
  match openThenTest d with
  | .error e => .error e
  | .ok _ => d.psR

/-- server.py `DeviceInfoRequest.handle`: resolve the device by name (an
unknown name yields a disconnected response with no error), run the probe,
and wrap any raised `Exception` into the structured error fields. -/
def deviceInfoHandle (devices : List DeviceBeh) (name : String) :
    Except PyErr DeviceInfoResponse :=
  match devices.find? (fun d => d.name == name) with
  | none => .ok { is_connected := false, has_device_type := false }
  | some d =>
    match deviceInfoProbe d with
    | .ok _ =>
      .ok { is_connected := true, has_device_type := true
            has_power_supply_info := true }
    | .error e =>
      if e.isException then
        .ok { is_connected := false, has_device_type := true
              error_type := some e.typeName, error_message := some e.msg }
      else .error e

/-- server.py request payloads after msgpack deserialization: the fields of
each registered request kind. -/
inductive RequestVal where
  | halt
  | helloWorld
  | listDevices
  | deviceInfo (device_name : String)
  deriving DecidableEq, Repr

/-- server.py response values. -/
inductive ResponseVal where
  | hello (content : String)
  | listDevices (devices : List DeviceStatus)
  | deviceInfo (r : DeviceInfoResponse)
  deriving DecidableEq, Repr

/-- A request wire frame after splitting on the first `:`: the type tag and
the msgpack payload (modelled post-deserialization). -/
structure Frame where
  tag : String
  payload : RequestVal
  deriving DecidableEq, Repr

/-- server.py `ServerRequest.handle_from_msgpack`: index
`_ALL_REQUEST_TYPES` with the decoded tag — a plain dict index, so a tag
that names no registered request class raises `KeyError` — deserialize the
payload into that class (a mismatched payload raises `ValueError`), and call
its `handle`. The registered classes are `HaltRequest` (whose handler calls
`sys.exit(0)`, raising `SystemExit`), `HelloWorldRequest`,
`ListDevicesRequest`, and `DeviceInfoRequest`. -/
def handleFromMsgpack (devices : List DeviceBeh) (f : Frame) :
    Except PyErr (Option ResponseVal) :=
  if f.tag = "HaltRequest" then
    match f.payload with
    | .halt => .error .systemExit
    | _ => .error (.valueError "bad payload")
  else if f.tag = "HelloWorldRequest" then
    match f.payload with
    | .helloWorld => .ok (some (.hello "Hello world"))
    | _ => .error (.valueError "bad payload")
  else if f.tag = "ListDevicesRequest" then
    match f.payload with
    | .listDevices =>
      match listDevicesHandle devices with
      | .error e => .error e
      | .ok ss => .ok (some (.listDevices ss))
    | _ => .error (.valueError "bad payload")
  else if f.tag = "DeviceInfoRequest" then
    match f.payload with
    | .deviceInfo n =>
      match deviceInfoHandle devices n with
      | .error e => .error e
      | .ok r => .ok (some (.deviceInfo r))
    | _ => .error (.valueError "bad payload")
  else .error (.keyError f.tag)

/-- server.py `Server._run` receive/dispatch/send loop over a finite
incoming frame sequence. The loop body has no exception handling: the first
exception raised during a dispatch — including the `KeyError` for an
unregistered tag — terminates the loop (and with it the server process).
Returns the responses sent before termination and the terminating exception,
if any. -/
def serverRun (devices : List DeviceBeh) :
    List Frame → List ResponseVal × Option PyErr
  | [] => ([], none)
  | f :: rest =>
    match handleFromMsgpack devices f with
    | .error e => ([], some e)
    | .ok none => serverRun devices rest
    | .ok (some r) =>
      let t := serverRun devices rest
      (r :: t.1, t.2)

/-! Device creation: labby/hw/core/__init__.py `Device.create` and
labctl/hw/core.py `Device.create`. -/

/-- Python values appearing in a device configMap. -/
inductive ConfigVal where
  | pyInt (i : Int)
  | pyStr (s : String)
  | pyBool (b : Bool)
  deriving DecidableEq, Repr

/-- Constructor parameter annotations, as consulted by
`signature.parameters[key].annotation`. -/
inductive PyAnnot where
  | intA
  | strA
  | boolA
  deriving DecidableEq, Repr

/-- Accumulate decimal digits; any non-digit character fails. -/
def digitsToNat : Nat → List Char → Option Nat
  | acc, [] => some acc
  | acc, c :: rest =>
    if c.isDigit then digitsToNat (acc * 10 + (c.toNat - 48)) rest else none

/-- The decimal parse performed by Python `int(str)`: an optional sign
followed by at least one digit; anything else raises `ValueError` (as
`int("4.25")` does). -/
def pyParseInt (s : String) : Option Int :=
  match s.data with
  | [] => none
  | '-' :: rest =>
    if rest.isEmpty then none else (digitsToNat 0 rest).map (fun n => -(n : Int))
  | '+' :: rest =>
    if rest.isEmpty then none else (digitsToNat 0 rest).map (fun n => (n : Int))
  | l => (digitsToNat 0 l).map (fun n => (n : Int))

/-- Python `int(value)`: the identity on ints, 0/1 on bools, and a decimal
parse on strings that raises `ValueError` on anything else (such as
`"4.25"`). -/
def pyIntOf : ConfigVal → Except PyErr ConfigVal
  | .pyInt i => .ok (.pyInt i)
  | .pyBool b => .ok (.pyInt (if b then 1 else 0))
  | .pyStr s =>
    match pyParseInt s with
    | some i => .ok (.pyInt i)
    | none => .error (.valueError ("invalid literal for int: " ++ s))

/-- Python `str(value)`. -/
def pyStrOf : ConfigVal → Except PyErr ConfigVal
  | .pyStr s => .ok (.pyStr s)
  | .pyInt i => .ok (.pyStr (toString i))
  | .pyBool b => .ok (.pyStr (if b then "True" else "False"))

/-- Python `bool(value)`: truthiness. -/
def pyBoolOf : ConfigVal → Except PyErr ConfigVal
  | .pyBool b => .ok (.pyBool b)
  | .pyInt i => .ok (.pyBool (decide (i ≠ 0)))
  | .pyStr s => .ok (.pyBool (decide (s.length ≠ 0)))

/-- `signature.parameters[key].annotation(value)` once the annotation is
known. -/
def coerceVal : PyAnnot → ConfigVal → Except PyErr ConfigVal
  | .intA, v => pyIntOf v
  | .strA, v => pyStrOf v
  | .boolA, v => pyBoolOf v

/-- One registered driver in `ALL_DRIVERS`: its constructor signature as the
mapping from parameter name to annotation. -/
structure DriverDesc where
  params : List (String × PyAnnot)
  deriving DecidableEq, Repr

/-- A constructed device object (labby `Device.create` assigns
`device.name = name` after construction; labctl's does not, leaving the
class default). -/
structure DeviceObj where
  driver : String
  name : String
  args : List (String × ConfigVal)
  deriving DecidableEq, Repr

/-- The dict comprehension in labby `Device.create`:
`signature.parameters[key].annotation(value)` for each config entry. A key
that is not a constructor parameter raises `KeyError`; a failing coercion
raises its own error (for example `ValueError` from `int("4.25")`). -/
def coerceArgs (desc : DriverDesc) :
    List (String × ConfigVal) → Except PyErr (List (String × ConfigVal))
  | [] => .ok []
  | (k, v) :: rest =>
    match alGet desc.params k with
    | none => .error (.keyError k)
    | some a =>
      match coerceVal a v with
      | .error e => .error e
      | .ok v2 =>
        match coerceArgs desc rest with
        | .error e => .error e
        | .ok t => .ok ((k, v2) :: t)

/-- labby/hw/core/__init__.py `Device.create`: `ALL_DRIVERS[driver]` — a
plain dict index, so an unregistered driver id raises `KeyError` — then the
coercion comprehension, then `klass(**typed_args)` and `device.name =
name`. -/
def deviceCreate (drivers : List (String × DriverDesc)) (name driver : String)
    (args : List (String × ConfigVal)) : Except PyErr DeviceObj :=
  match alGet drivers driver with
  | none => .error (.keyError driver)
  | some desc =>
    match coerceArgs desc args with
    | .error e => .error e
    | .ok typed => .ok { driver := driver, name := name, args := typed }

/-- labctl/hw/core.py `Device.create`: `ALL_DRIVERS[driver](**args)` with no
schema validation at all; only an unregistered driver id raises
(`KeyError`). -/
def labctlDeviceCreate (drivers : List (String × DriverDesc)) (driver : String)
    (args : List (String × ConfigVal)) : Except PyErr DeviceObj :=
  match alGet drivers driver with
  | none => .error (.keyError driver)
  | some _ => .ok { driver := driver, name := "unnamed device", args := args }

/-- A two-job worker session against the single controller of
`soloState p k`: a QUERY whose transport `write` raises `e`, then a QUERY
served the line "OK\r\n" (bytes 79, 75, 13, 10). -/
def twoJobSession (p : String) (k : Int) (e : PyErr)
    (msg1 msg2 : List Nat) (uuid1 uuid2 : Nat) : ExecState × WorkerExit :=
  runWorkerLoop
    [({ uuid := uuid1, type := JobType.QUERY, message := msg1 },
      writeFailBehavior e),
     ({ uuid := uuid2, type := JobType.QUERY, message := msg2 },
      lineBehavior [79, 75, 13, 10])]
    (soloExec p k)

/-- A healthy configured device: every driver call succeeds. -/
def goodDevice : DeviceBeh :=
  { name := "psu", openR := .ok (), testR := .ok (), closeR := .ok () }

/-- A device whose `open()` raises before `_serial_controller` is assigned:
its `close()` then raises the `serial_controller` property's
`AssertionError` (see `serialControllerProp`), which is exactly what
serial.py `SerialDevice.close` does on a device that never finished
opening. -/
def badCloseDevice : DeviceBeh :=
  { name := "zup"
    openR := .error (.serialException "could not open port /dev/ttyUSB1")
    testR := .ok ()
    closeR := .error (.assertionError notOpenMsg) }

/-- The ZUP power-supply driver's registration: its constructor signature
(`port`, `baudrate`, `address`), as registered in `ALL_DRIVERS` under its
module-qualified class name. -/
def demoDrivers : List (String × DriverDesc) :=
  [("labby.hw.tdklambda.power_supply.ZUP",
    { params := [("port", .strA), ("baudrate", .intA), ("address", .intA)] })]

theorem alGet_alSet {κ β : Type} [DecidableEq κ] (l : List (κ × β)) (k : κ) (v : β) :
    alGet (alSet l k v) k = some v := by
  induction l with
  | nil => simp [alSet, alGet]
  | cons hd tl ih =>
    obtain ⟨k2, v2⟩ := hd
    by_cases h : k2 = k
    · simp [alSet, alGet, h]
    · simp [alSet, alGet, h, ih]

theorem acquire_init (p : String) : acquire initRegistry p = (0, soloState p 1) := rfl

theorem acquire_solo (p : String) (k : Int) :
    acquire (soloState p k) p = (0, soloState p (k + 1)) := by
  simp [acquire, getOrCreate, soloState, alGet, RegistryState.findCtrl,
        RegistryState.updCtrl, Controller.isAlive, List.find?]

theorem acquireN_solo (p : String) : ∀ (n : Nat) (k : Int),
    acquireN p n (soloState p k) = soloState p (k + n) := by
  intro n
  induction n with
  | zero => intro k; simp [acquireN]
  | succ m ih =>
    intro k
    show acquireN p m (acquire (soloState p k) p).2 = _
    rw [acquire_solo, ih]
    have h2 : k + 1 + (m : Int) = k + ((m + 1 : Nat) : Int) := by push_cast; ring
    rw [h2]

theorem liveFor_solo (p : String) (k : Int) :
    liveFor (soloState p k) p
      = [{ id := 0, port := p, numClients := k, started := true, finished := false }] := by
  simp [liveFor, soloState, Controller.isAlive]

theorem getOrCreate_reuse (p : String) (s : RegistryState) (cid : Nat) (c : Controller)
    (h1 : alGet s.registry p = some cid) (h2 : s.findCtrl cid = some c)
    (h3 : c.isAlive = true) :
    getOrCreate s p
      = (cid, s.updCtrl cid (fun c2 => { c2 with numClients := c2.numClients + 1 })) := by
  simp [getOrCreate, h1, h2, h3]

theorem getOrCreate_fresh (p : String) (s : RegistryState)
    (h : ∀ cid c, alGet s.registry p = some cid → s.findCtrl cid = some c →
      c.isAlive = false) :
    (getOrCreate s p).1 = s.nextId ∧
    alGet (getOrCreate s p).2.registry p = some s.nextId := by
  unfold getOrCreate
  cases hg : alGet s.registry p with
  | none => simp [hg, constructAndRegister, RegistryState.updCtrl, alGet_alSet]
  | some cid =>
    cases hf : s.findCtrl cid with
    | none => simp [hg, hf, constructAndRegister, RegistryState.updCtrl, alGet_alSet]
    | some c =>
      have hdead := h cid c hg hf
      simp [hg, hf, hdead, constructAndRegister, RegistryState.updCtrl, alGet_alSet]

theorem alGet_alSet_ne {κ β : Type} [DecidableEq κ] (l : List (κ × β)) (k k2 : κ)
    (v : β) (h : k ≠ k2) : alGet (alSet l k v) k2 = alGet l k2 := by
  induction l with
  | nil => simp [alSet, alGet, h]
  | cons hd tl ih =>
    obtain ⟨ka, va⟩ := hd
    by_cases h2 : ka = k
    · subst h2; simp [alSet, alGet, h]
    · by_cases h3 : ka = k2
      · subst h3; simp [alSet, alGet, h2, Ne.symm h]
      · simp [alSet, alGet, h2, h3, ih]

theorem alGet_self {κ β : Type} [DecidableEq κ] (l : List (κ × β)) (k : κ) (v : β) :
    alGet ((k, v) :: l) k = some v := by
  simp [alGet]

/-- C10: calling `_write`, `_query`, or `close` on a `SerialDevice` that was
never opened raises the `none_throws` `AssertionError` "Attempted to access
SerialDevice without opening it first" from the `serial_controller` property,
before any job is submitted or transport operation attempted (the worker
state comes back untouched); `open` must therefore precede every other
operation. -/
theorem C10_unopened_device_raises (beh : SerialBehavior) (st : ExecState)
    (uuid : Nat) (msg : List Nat) :
    deviceWrite ⟨none⟩ beh st uuid msg
      = (.error (.assertionError notOpenMsg), st) ∧
    deviceQuery ⟨none⟩ beh st uuid msg
      = (.error (.assertionError notOpenMsg), st) ∧
    deviceClose ⟨none⟩ beh st uuid
      = (.error (.assertionError notOpenMsg), st) :=
  ⟨rfl, rfl, rfl⟩

/-- C6 counterexample: dispatching a frame whose tag names no registered
request kind makes `handle_from_msgpack` raise `KeyError`, which nothing in
`Server._run` catches: the server loop terminates at once and a
`HelloWorldRequest` queued right behind the unknown frame is never served —
the connection does not continue, contrary to the claim. Served alone, the
same hello frame gets its response. -/
theorem C6_counterexample :
    serverRun [] [{ tag := "BogusRequest", payload := RequestVal.helloWorld },
                  { tag := "HelloWorldRequest", payload := RequestVal.helloWorld }]
      = ([], some (.keyError "BogusRequest")) ∧
    serverRun [] [{ tag := "HelloWorldRequest", payload := RequestVal.helloWorld }]
      = ([ResponseVal.hello "Hello world"], none) :=
  ⟨rfl, rfl⟩

/-- C6 amended: dispatching a wire frame whose type tag is not a registered
request kind raises `KeyError` out of the dispatcher, and the server loop —
which has no exception handling — terminates without serving any subsequent
request (the process dies), instead of continuing to serve. -/
theorem C6_amended_unknown_tag (devices : List DeviceBeh) (tag : String)
    (payload : RequestVal) (rest : List Frame)
    (h1 : tag ≠ "HaltRequest") (h2 : tag ≠ "HelloWorldRequest")
    (h3 : tag ≠ "ListDevicesRequest") (h4 : tag ≠ "DeviceInfoRequest") :
    handleFromMsgpack devices { tag := tag, payload := payload }
      = .error (.keyError tag) ∧
    serverRun devices ({ tag := tag, payload := payload } :: rest)
      = ([], some (.keyError tag)) := by
  have hh : handleFromMsgpack devices { tag := tag, payload := payload }
      = .error (.keyError tag) := by
    simp [handleFromMsgpack, h1, h2, h3, h4]
  exact ⟨hh, by simp [serverRun, hh]⟩

theorem C6_amended_unknown_tag_witness :
    handleFromMsgpack [] { tag := "BogusRequest", payload := RequestVal.helloWorld }
      = .error (.keyError "BogusRequest") ∧
    serverRun [] [{ tag := "BogusRequest", payload := RequestVal.helloWorld }]
      = ([], some (.keyError "BogusRequest")) :=
  C6_amended_unknown_tag [] "BogusRequest" RequestVal.helloWorld []
    (by decide) (by decide) (by decide) (by decide)

/-- C7 counterexample: `_get_device_status` runs `device.close()` in a
`finally` block, so a device whose `close()` raises — exactly what a
`SerialDevice` does when its `open()` failed before `_serial_controller` was
assigned — propagates that exception out of the handler: `ListDevices` over
`[goodDevice, badCloseDevice]` aborts with the error instead of returning
one status per device. Without the bad device the batch is produced. -/
theorem C7_counterexample :
    listDevicesHandle [goodDevice, badCloseDevice]
      = .error (.assertionError notOpenMsg) ∧
    listDevicesHandle [goodDevice]
      = .ok [{ name := "psu", is_available := true }] :=
  ⟨rfl, rfl⟩

/-- C7 amended: provided every configured device's `close()` returns without
raising and every `open`/`test_connection` failure is an `Exception` (not a
`BaseException`), `ListDevices` catches each per-device failure and returns
exactly one status per configured device, a failure on one device never
aborting the batch. -/
theorem C7_amended_per_device_catch (devices : List DeviceBeh)
    (hclose : ∀ d ∈ devices, d.closeR = .ok ())
    (hexc : ∀ d ∈ devices, ∀ e, openThenTest d = .error e → e.isException = true) :
    listDevicesHandle devices = .ok (devices.map deviceStatusNoClose) := by
  induction devices with
  | nil => rfl
  | cons d rest ih =>
    have hc := hclose d (by simp)
    have he := hexc d (by simp)
    have hr : listDevicesHandle rest = .ok (rest.map deviceStatusNoClose) :=
      ih (fun d2 hd2 => hclose d2 (by simp [hd2]))
        (fun d2 hd2 => hexc d2 (by simp [hd2]))
    cases hot : openThenTest d with
    | ok u =>
      simp [listDevicesHandle, getDeviceStatus, hc, hot, hr, deviceStatusNoClose]
    | error e =>
      have hie := he e hot
      simp [listDevicesHandle, getDeviceStatus, hc, hot, hie, hr, deviceStatusNoClose]

theorem C7_amended_per_device_catch_witness :
    listDevicesHandle
      [goodDevice,
       { name := "zup", openR := .error (.serialException "could not open port")
         testR := .ok (), closeR := .ok () }]
      = .ok ([goodDevice,
              { name := "zup", openR := .error (.serialException "could not open port")
                testR := .ok (), closeR := .ok () }].map deviceStatusNoClose) := by
  apply C7_amended_per_device_catch
  · intro d hd
    rcases List.mem_cons.mp hd with rfl | hd2
    · rfl
    · rcases List.mem_cons.mp hd2 with rfl | hd3
      · rfl
      · cases hd3
  · intro d hd e hline
    rcases List.mem_cons.mp hd with rfl | hd2
    · simp [openThenTest, goodDevice] at hline
    · rcases List.mem_cons.mp hd2 with rfl | hd3
      · simp [openThenTest] at hline
        rw [← hline]
        rfl
      · cases hd3

/-- C8 counterexample: `Device.create` with an unregistered driver id raises
`KeyError` — an exception whose class name is not `UnknownDriverError` (no
class of that name exists in the source) — and a malformed field such as
`baudrate: "4.25"` raises the coercion's own `ValueError`, not a
`ConfigValidationError`. -/
theorem C8_counterexample :
    deviceCreate demoDrivers "zup-psu" "labby.hw.acme.Missing" []
      = .error (.keyError "labby.hw.acme.Missing") ∧
    (PyErr.keyError "labby.hw.acme.Missing").typeName = "KeyError" ∧
    ("KeyError" : String) ≠ "UnknownDriverError" ∧
    deviceCreate demoDrivers "zup-psu" "labby.hw.tdklambda.power_supply.ZUP"
        [("baudrate", .pyStr "4.25")]
      = .error (.valueError "invalid literal for int: 4.25") ∧
    (PyErr.valueError "invalid literal for int: 4.25").typeName = "ValueError" ∧
    ("ValueError" : String) ≠ "ConfigValidationError" :=
  ⟨rfl, rfl, by decide, by decide, rfl, by decide⟩

/-- C8 amended: an unregistered driver id makes both labby's and labctl's
`Device.create` raise `KeyError`; in labby's, a config field that is not a
constructor parameter raises `KeyError`, a field whose coercion fails raises
that coercion's own error (such as `ValueError`), and a registered driver
with a config whose fields all coerce yields the constructed device with the
coerced arguments and the assigned name. -/
theorem C8_amended_create :
    (∀ drivers name driver args, alGet drivers driver = none →
       deviceCreate drivers name driver args = .error (.keyError driver) ∧
       labctlDeviceCreate drivers driver args = .error (.keyError driver)) ∧
    (∀ drivers name driver desc args typed, alGet drivers driver = some desc →
       coerceArgs desc args = .ok typed →
       deviceCreate drivers name driver args
         = .ok { driver := driver, name := name, args := typed }) ∧
    (∀ desc k v rest a e, alGet desc.params k = some a →
       coerceVal a v = .error e →
       coerceArgs desc ((k, v) :: rest) = .error e) ∧
    (∀ desc k v rest, alGet desc.params k = none →
       coerceArgs desc ((k, v) :: rest) = .error (.keyError k)) := by
  refine ⟨?_, ?_, ?_, ?_⟩
  · intro drivers name driver args h
    constructor <;> simp [deviceCreate, labctlDeviceCreate, h]
  · intro drivers name driver desc args typed h1 h2
    simp [deviceCreate, h1, h2]
  · intro desc k v rest a e h1 h2
    simp [coerceArgs, h1, h2]
  · intro desc k v rest h
    simp [coerceArgs, h]

theorem C8_amended_create_witness :
    deviceCreate [] "zup-psu" "labby.hw.acme.Missing" []
      = .error (.keyError "labby.hw.acme.Missing") ∧
    deviceCreate demoDrivers "zup-psu" "labby.hw.tdklambda.power_supply.ZUP"
        [("port", .pyStr "/dev/ttyUSB0"), ("baudrate", .pyStr "9600")]
      = .ok { driver := "labby.hw.tdklambda.power_supply.ZUP", name := "zup-psu"
              args := [("port", .pyStr "/dev/ttyUSB0"), ("baudrate", .pyInt 9600)] } :=
  ⟨(C8_amended_create.1 [] "zup-psu" "labby.hw.acme.Missing" [] rfl).1,
   C8_amended_create.2.1 demoDrivers "zup-psu" "labby.hw.tdklambda.power_supply.ZUP"
     { params := [("port", .strA), ("baudrate", .intA), ("address", .intA)] }
     [("port", .pyStr "/dev/ttyUSB0"), ("baudrate", .pyStr "9600")]
     [("port", .pyStr "/dev/ttyUSB0"), ("baudrate", .pyInt 9600)]
     rfl (by decide)⟩

/-- C1 counterexample: four equal-priority (LOW) jobs submitted in the order
1, 2, 3, 4 are dequeued by the priority queue in the order 1, 3, 2, 4 — job 3
overtakes job 2 — because the jobs compare equal (only `priority` is a
`compare=True` field) and a binary heap is not stable; and merely pushing a
HIGH job onto a queue holding a LOW job raises `TypeError`, since the plain
`Enum` priorities do not support `<`. Equal-priority jobs are therefore not
dequeued in submission (FIFO) order. -/
theorem C1_counterexample :
    (match heapPushAll [] [lowJob 1, lowJob 2, lowJob 3, lowJob 4] with
      | .ok h => (heapDrain h).map (List.map SerialControllerJob.uuid)
      | .error e => .error e)
      = .ok [1, 3, 2, 4] ∧
    ([1, 3, 2, 4] : List Nat) ≠ [1, 2, 3, 4] ∧
    heappush [lowJob 1] (highJob 2) = .error .typeError := by
  exact ⟨by decide, by decide, by decide⟩

/-- C1 amended: jobs compare on `priority` alone, so the worker's
`PriorityQueue` dequeues equal-priority jobs in binary-heap order, not
submission order — four LOW jobs submitted 1, 2, 3, 4 come out 1, 3, 2, 4 —
and because `SerialControllerJobPriority` is a plain unordered `Enum`,
comparing a HIGH job with a LOW job raises `TypeError` inside the heap, so
the claimed HIGH-before-LOW dequeue policy can never actually be exercised:
enqueueing mixed priorities fails instead of ordering them. -/
theorem C1_amended_dequeue_order :
    (match heapPushAll [] [lowJob 1, lowJob 2, lowJob 3, lowJob 4] with
      | .ok h => (heapDrain h).map (List.map SerialControllerJob.uuid)
      | .error e => .error e)
      = .ok [1, 3, 2, 4] ∧
    heappush [lowJob 1] (highJob 2) = .error .typeError ∧
    heappush [highJob 1] (lowJob 2) = .error .typeError ∧
    jobLt (lowJob 1) (lowJob 2) = .ok false ∧
    jobLt (lowJob 2) (lowJob 1) = .ok false := by
  exact ⟨by decide, by decide, by decide, by decide, by decide⟩

theorem controllerQuery_line (line : List Nat) (st : ExecState) (uuid : Nat)
    (msg : List Nat) :
    (controllerQuery (lineBehavior line) st uuid msg).1
      = pyDecodeUtf8 (readlineSlice line) ∧
    (controllerQuery (lineBehavior line) st uuid msg).2.written
      = st.written ++ [msg] := by
  cases hso : st.serialOpen <;>
    cases hd : utf8DecodeChars (readlineSlice line) <;>
      simp [controllerQuery, executeJob, executeJobBody, pyStep, openPhase,
            writePhase, queryPhase, lineBehavior, pyDecodeUtf8, readResultStr,
            PyErr.isException, hso, hd, alGet_alSet]

/-- C5: a QUERY job writes exactly the message bytes to the transport and
returns the one line read, stripped of its two-byte terminator and decoded —
on a transport emitting "SV1.42\r\n" (bytes 83 86 49 46 52 50 13 10), `query`
returns "SV1.42" — and when the transport raises during the read, the stored
error itself is raised in the caller. -/
theorem C5_query_roundtrip :
    (∀ st uuid msg line,
       (controllerQuery (lineBehavior line) st uuid msg).1
         = pyDecodeUtf8 (readlineSlice line)) ∧
    (∀ st uuid msg line,
       (controllerQuery (lineBehavior line) st uuid msg).2.written
         = st.written ++ [msg]) ∧
    (controllerQuery (lineBehavior [83, 86, 49, 46, 52, 50, 13, 10])
        (soloExec "/dev/ttyUSB0" 1) 7 [83, 86, 63]).1 = .ok "SV1.42" ∧
    (∀ st uuid msg e, e.isException = true →
       (controllerQuery (readFailBehavior e) st uuid msg).1 = .error e) := by
  refine ⟨fun st uuid msg line => (controllerQuery_line line st uuid msg).1,
          fun st uuid msg line => (controllerQuery_line line st uuid msg).2,
          by decide, ?_⟩
  intro st uuid msg e he
  cases hso : st.serialOpen <;>
    simp [controllerQuery, executeJob, executeJobBody, pyStep, openPhase,
          writePhase, queryPhase, readFailBehavior, readResultStr, hso, he,
          alGet_alSet]

theorem C5_query_roundtrip_witness :
    (controllerQuery (readFailBehavior (.serialException "read failed"))
        (soloExec "/dev/ttyUSB0" 1) 7 [83, 86, 63]).1
      = .error (.serialException "read failed") :=
  C5_query_roundtrip.2.2.2 (soloExec "/dev/ttyUSB0" 1) 7 [83, 86, 63]
    (.serialException "read failed") rfl

/-- C9: the QUERY path removes exactly the last two bytes of whatever line
the transport returns before decoding, terminator or not: a line "AB\n" that
does not end in CRLF decodes to "A" (a payload byte is lost), "SV1.42XY"
decodes to "SV1.42" (two payload bytes lost), and lines of fewer than two
bytes decode to the empty string. -/
theorem C9_strip_last_two_bytes :
    (∀ st uuid msg line,
       (controllerQuery (lineBehavior line) st uuid msg).1
         = pyDecodeUtf8 (line.take (line.length - 2))) ∧
    (controllerQuery (lineBehavior [83, 86, 49, 46, 52, 50, 88, 89])
        (soloExec "p" 1) 1 []).1 = .ok "SV1.42" ∧
    (controllerQuery (lineBehavior [65, 66, 10]) (soloExec "p" 1) 1 []).1
      = .ok "A" ∧
    (controllerQuery (lineBehavior [65]) (soloExec "p" 1) 1 []).1 = .ok "" ∧
    (controllerQuery (lineBehavior []) (soloExec "p" 1) 1 []).1 = .ok "" := by
  exact ⟨fun st uuid msg line => (controllerQuery_line line st uuid msg).1,
         by decide, by decide, by decide, by decide⟩

/-- C3: any `Exception` raised while executing a job is captured into that
job's result slot by `_execute_job` and nothing propagates out of the worker;
`_read_result` re-raises exactly the stored exception object in the caller's
thread; and the worker survives: in a session where the first QUERY's
transport write raises `e`, the worker goes on to serve the second QUERY
normally (storing its decoded line), ending up blocked on the queue again
(alive), with the first caller receiving exactly `e`. -/
theorem C3_error_capture_and_rethrow :
    (∀ beh st job st1 e, executeJobBody beh st job = (st1, some e) →
       e.isException = true →
       executeJob beh st job
         = ({ st1 with jobResults := alSet st1.jobResults job.uuid (.exc e) },
            none)) ∧
    (∀ results uuid e, alGet results uuid = some (.exc e) →
       (readResultStr results uuid).1 = .error e ∧
       (readResultNone results uuid).1 = .error e) ∧
    (∀ p k e msg1 msg2 uuid1 uuid2, e.isException = true → uuid1 ≠ uuid2 →
       twoJobSession p k e msg1 msg2 uuid1 uuid2
         = ({ regState := soloState p k, selfPort := p, selfId := 0
              serialOpen := true
              jobResults := [(uuid1, .exc e), (uuid2, .str "OK")]
              written := [msg2], closedCount := 0 }, WorkerExit.starved) ∧
       (readResultStr (twoJobSession p k e msg1 msg2 uuid1 uuid2).1.jobResults
          uuid1).1 = .error e ∧
       (readResultStr (twoJobSession p k e msg1 msg2 uuid1 uuid2).1.jobResults
          uuid2).1 = .ok "OK") := by
  refine ⟨?_, ?_, ?_⟩
  · intro beh st job st1 e hbody hexc
    simp [executeJob, hbody, hexc]
  · intro results uuid e h
    constructor <;> simp [readResultStr, readResultNone, h]
  · intro p k e msg1 msg2 uuid1 uuid2 he hne
    have hOK : pyDecodeUtf8 (readlineSlice [79, 75, 13, 10]) = .ok "OK" := by
      decide
    have hrun : twoJobSession p k e msg1 msg2 uuid1 uuid2
        = ({ regState := soloState p k, selfPort := p, selfId := 0
             serialOpen := true
             jobResults := [(uuid1, .exc e), (uuid2, .str "OK")]
             written := [msg2], closedCount := 0 }, WorkerExit.starved) := by
      simp [twoJobSession, runWorkerLoop, executeJob, executeJobBody, pyStep,
            openPhase, writePhase, queryPhase, writeFailBehavior, lineBehavior,
            soloExec, soloState, alGet, alSet, he, hOK, hne]
    refine ⟨hrun, ?_, ?_⟩
    · rw [hrun]
      simp [readResultStr, alGet]
    · rw [hrun]
      simp [readResultStr, alGet, hne]

theorem C3_error_capture_and_rethrow_witness :
    (readResultStr (twoJobSession "/dev/ttyUSB0" 2 (.serialException "boom")
        [1] [2] 1 2).1.jobResults 1).1 = .error (.serialException "boom") ∧
    (readResultStr (twoJobSession "/dev/ttyUSB0" 2 (.serialException "boom")
        [1] [2] 1 2).1.jobResults 2).1 = .ok "OK" :=
  ⟨(C3_error_capture_and_rethrow.2.2 "/dev/ttyUSB0" 2 (.serialException "boom")
      [1] [2] 1 2 rfl (by decide)).2.1,
   (C3_error_capture_and_rethrow.2.2 "/dev/ttyUSB0" 2 (.serialException "boom")
      [1] [2] 1 2 rfl (by decide)).2.2⟩

theorem soloExec_selfPort (p : String) (k : Int) : (soloExec p k).selfPort = p := rfl

theorem soloExec_registry (p : String) (k : Int) :
    (soloExec p k).regState.registry = [(p, 0)] := rfl

theorem executeJob_close_solo (beh : SerialBehavior) (p : String) (k : Int) :
    executeJob beh (soloExec p k) closeJob
      = (if k = 1 then soloExecDone p else soloExec p (k - 1), none) := by
  by_cases h : k = 1 <;>
    simp [executeJob, executeJobBody, closePhase, closeJob, soloExec, soloState,
          soloExecDone, ExecState.selfClients, RegistryState.findCtrl,
          RegistryState.updCtrl, alGet, alErase, h, sub_eq_zero, List.find?]

theorem runWorkerLoop_cons_step (j : SerialControllerJob) (beh : SerialBehavior)
    (rest : List (SerialControllerJob × SerialBehavior)) (st st1 : ExecState)
    (hcond : (alGet st.regState.registry st.selfPort).isSome = true)
    (hexec : executeJob beh st j = (st1, none)) :
    runWorkerLoop ((j, beh) :: rest) st = runWorkerLoop rest st1 := by
  simp only [runWorkerLoop, hcond, if_true, hexec]

theorem runWorkerLoop_closes (p : String) : ∀ (m : Nat),
    runWorkerLoop (List.replicate (m + 1) (closeJob, idleBehavior))
      (soloExec p ((m : Int) + 1))
      = (soloExecDone p, WorkerExit.finished) := by
  intro m
  induction m with
  | zero =>
    have h1 : ((0 : Nat) : Int) + 1 = 1 := by norm_num
    rw [h1]
    rw [show List.replicate 1 (closeJob, idleBehavior)
          = [(closeJob, idleBehavior)] from rfl]
    rw [runWorkerLoop_cons_step closeJob idleBehavior [] (soloExec p 1)
        (soloExecDone p)
        (by simp [soloExec_registry, soloExec_selfPort, alGet_self])
        (by rw [executeJob_close_solo]; simp)]
    simp [runWorkerLoop, soloExecDone, alGet]
  | succ n ih =>
    have hk : ¬ (((n + 1 : Nat) : Int) + 1 = 1) := by push_cast; omega
    have hk2 : ((n + 1 : Nat) : Int) + 1 - 1 = ((n : Nat) : Int) + 1 := by
      push_cast; ring
    rw [List.replicate_succ]
    rw [runWorkerLoop_cons_step closeJob idleBehavior
        (List.replicate (n + 1) (closeJob, idleBehavior))
        (soloExec p (((n + 1 : Nat) : Int) + 1))
        (soloExec p (((n : Nat) : Int) + 1))
        (by simp [soloExec_registry, soloExec_selfPort, alGet_self])
        (by rw [executeJob_close_solo, if_neg hk, hk2])]
    exact ih

theorem runWorkerLoop_closes_short (p : String) : ∀ (j : Nat) (k : Int),
    (j : Int) < k →
    runWorkerLoop (List.replicate j (closeJob, idleBehavior)) (soloExec p k)
      = (soloExec p (k - j), WorkerExit.starved) := by
  intro j
  induction j with
  | zero =>
    intro k hk
    simp [runWorkerLoop, soloExec_selfPort, soloExec_registry, alGet_self]
  | succ n ih =>
    intro k hk
    have h1 : ¬ (k = 1) := by push_cast at hk; omega
    have h2 : ((n : Nat) : Int) < k - 1 := by push_cast at hk ⊢; omega
    have h3 : k - 1 - (n : Int) = k - ((n + 1 : Nat) : Int) := by push_cast; ring
    rw [List.replicate_succ]
    rw [runWorkerLoop_cons_step closeJob idleBehavior
        (List.replicate n (closeJob, idleBehavior))
        (soloExec p k) (soloExec p (k - 1))
        (by simp [soloExec_registry, soloExec_selfPort, alGet_self])
        (by rw [executeJob_close_solo, if_neg h1])]
    rw [ih (k - 1) h2, h3]

theorem closePhase_closedCount (st : ExecState) :
    (closePhase st).1.closedCount = st.closedCount := by
  unfold closePhase
  dsimp only
  split_ifs <;> rfl

theorem openPhase_closedCount (beh : SerialBehavior) (st : ExecState) :
    (openPhase beh st).1.closedCount = st.closedCount := by
  unfold openPhase
  split
  · rfl
  · split
    · rfl
    · split <;> rfl

theorem writePhase_closedCount (beh : SerialBehavior) (st : ExecState)
    (msg : List Nat) :
    (writePhase beh st msg).1.closedCount = st.closedCount := by
  unfold writePhase
  split <;> rfl

theorem queryPhase_closedCount (beh : SerialBehavior) (st : ExecState)
    (uuid : Nat) :
    (queryPhase beh st uuid).1.closedCount = st.closedCount := by
  unfold queryPhase
  split
  · rfl
  · split <;> rfl

theorem pyStep_closedCount (r : ExecState × Option PyErr)
    (f : ExecState → ExecState × Option PyErr)
    (hf : ∀ st2, (f st2).1.closedCount = st2.closedCount) :
    (pyStep r f).1.closedCount = r.1.closedCount := by
  rcases r with ⟨st0, oe⟩
  cases oe with
  | none => exact hf st0
  | some e => rfl

theorem executeJobBody_closedCount (beh : SerialBehavior) (st : ExecState)
    (job : SerialControllerJob) :
    (executeJobBody beh st job).1.closedCount = st.closedCount := by
  unfold executeJobBody
  split
  · exact closePhase_closedCount st
  · have hg : ∀ st3 : ExecState,
        ((if job.type = JobType.WRITE then (st3, none)
          else queryPhase beh st3 job.uuid)).1.closedCount = st3.closedCount := by
      intro st3
      split
      · rfl
      · exact queryPhase_closedCount beh st3 job.uuid
    have hf : ∀ st2 : ExecState,
        (pyStep (writePhase beh st2 job.message) (fun st3 =>
          if job.type = JobType.WRITE then (st3, none)
          else queryPhase beh st3 job.uuid)).1.closedCount = st2.closedCount := by
      intro st2
      rw [pyStep_closedCount _ _ hg, writePhase_closedCount]
    rw [pyStep_closedCount _ _ hf, openPhase_closedCount]

theorem executeJob_closedCount (beh : SerialBehavior) (st : ExecState)
    (job : SerialControllerJob) :
    (executeJob beh st job).1.closedCount = st.closedCount := by
  have h := executeJobBody_closedCount beh st job
  unfold executeJob
  rcases hb : executeJobBody beh st job with ⟨st1, oe⟩
  rw [hb] at h
  cases oe with
  | none => exact h
  | some e => cases he : e.isException <;> simp only [he, if_true, if_false] <;> exact h

theorem runWorkerLoop_closedCount :
    ∀ (jobs : List (SerialControllerJob × SerialBehavior)) (st : ExecState),
    (runWorkerLoop jobs st).1.closedCount = st.closedCount := by
  intro jobs
  induction jobs with
  | nil =>
    intro st
    unfold runWorkerLoop
    split <;> rfl
  | cons jb rest ih =>
    intro st
    obtain ⟨j, beh⟩ := jb
    unfold runWorkerLoop
    split
    · rcases hx : executeJob beh st j with ⟨st1, oe⟩
      have h1 : st1.closedCount = st.closedCount := by
        have h2 := executeJob_closedCount beh st j
        rw [hx] at h2
        exact h2
      cases oe with
      | none => rw [ih st1]; exact h1
      | some e => exact h1
    · rfl

/-- C4: after M acquires of one port (client count M), executing the M
matching CLOSE jobs drives the count to zero; the port's registry entry is
deleted exactly at the M-th close (after any strict prefix of the closes the
port is still registered); the worker loop then exits having finished every
pending job (normal `finished` exit, the queue-empty assertion passing); and
the transport is closed exactly once — as it is on every exit path of the
worker other than blocking forever on an empty queue. -/
theorem C4_release_teardown (p : String) (M : Nat) (hM : 1 ≤ M) :
    runWorker (List.replicate M (closeJob, idleBehavior)) (soloExec p (M : Int))
      = ({ soloExecDone p with closedCount := 1 }, WorkerExit.finished) ∧
    ExecState.selfClients { soloExecDone p with closedCount := 1 } = 0 ∧
    alGet (soloExecDone p).regState.registry p = none ∧
    (∀ j : Nat, j < M →
      alGet ((runWorkerLoop (List.replicate j (closeJob, idleBehavior))
          (soloExec p (M : Int))).1.regState.registry) p = some 0) ∧
    (∀ jobs st, (runWorker jobs st).2 ≠ WorkerExit.starved →
      (runWorker jobs st).1.closedCount = st.closedCount + 1) := by
  obtain ⟨m, rfl⟩ : ∃ m, M = m + 1 := ⟨M - 1, by omega⟩
  have hcast : ((m + 1 : Nat) : Int) = ((m : Nat) : Int) + 1 := by push_cast; ring
  refine ⟨?_, rfl, rfl, ?_, ?_⟩
  · unfold runWorker
    rw [hcast, runWorkerLoop_closes]
    rfl
  · intro j hj
    have hjk : ((j : Nat) : Int) < ((m + 1 : Nat) : Int) := by
      push_cast
      omega
    rw [runWorkerLoop_closes_short p j _ hjk]
    exact alGet_self [] p 0
  · intro jobs st hne
    have hl := runWorkerLoop_closedCount jobs st
    unfold runWorker at hne ⊢
    rcases hx : runWorkerLoop jobs st with ⟨st1, ex⟩
    rw [hx] at hne hl
    simp only at hl
    cases ex with
    | starved => simp at hne
    | finished => simp [hl]
    | assertFailed => simp [hl]
    | raised e => simp [hl]

theorem C4_release_teardown_witness :
    runWorker (List.replicate 3 (closeJob, idleBehavior))
      (soloExec "/dev/ttyUSB0" (3 : Int))
      = ({ soloExecDone "/dev/ttyUSB0" with closedCount := 1 },
         WorkerExit.finished) :=
  (C4_release_teardown "/dev/ttyUSB0" 3 (by decide)).1

/-- C2: starting from the empty registry, M sequential acquires of a port
(each the `get_or_create` + `start` path of `SerialDevice.open`) leave
exactly one live controller for that port among all controllers ever
constructed, registered under the port, with client count M; moreover, for
any registry state, a `get_or_create` for a port whose registered controller
is alive reuses that controller (incrementing its `num_clients`,
constructing nothing), and otherwise a fresh controller is constructed and
registered under the port. -/
theorem C2_acquire_refcount (p : String) (M : Nat) (hM : 1 ≤ M) :
    acquireN p M initRegistry = soloState p (M : Int) ∧
    liveFor (acquireN p M initRegistry) p
      = [{ id := 0, port := p, numClients := (M : Int)
           started := true, finished := false }] ∧
    alGet (acquireN p M initRegistry).registry p = some 0 ∧
    (∀ s cid c, alGet s.registry p = some cid → s.findCtrl cid = some c →
      c.isAlive = true →
      getOrCreate s p
        = (cid, s.updCtrl cid
            (fun c2 => { c2 with numClients := c2.numClients + 1 }))) ∧
    (∀ s, (∀ cid c, alGet s.registry p = some cid → s.findCtrl cid = some c →
        c.isAlive = false) →
      (getOrCreate s p).1 = s.nextId ∧
      alGet (getOrCreate s p).2.registry p = some s.nextId) := by
  have hmain : acquireN p M initRegistry = soloState p (M : Int) := by
    obtain ⟨m, rfl⟩ : ∃ m, M = m + 1 := ⟨M - 1, by omega⟩
    show acquireN p m (acquire initRegistry p).2 = _
    rw [acquire_init]
    show acquireN p m (soloState p 1) = _
    rw [acquireN_solo]
    have h2 : (1 : Int) + (m : Int) = ((m + 1 : Nat) : Int) := by push_cast; ring
    rw [h2]
  refine ⟨hmain, ?_, ?_, ?_, ?_⟩
  · rw [hmain, liveFor_solo]
  · rw [hmain]
    exact alGet_self [] p 0
  · intro s cid c h1 h2 h3
    exact getOrCreate_reuse p s cid c h1 h2 h3
  · intro s h
    exact getOrCreate_fresh p s h

theorem C2_acquire_refcount_witness :
    acquireN "/dev/ttyUSB0" 2 initRegistry = soloState "/dev/ttyUSB0" (2 : Int) ∧
    liveFor (acquireN "/dev/ttyUSB0" 2 initRegistry) "/dev/ttyUSB0"
      = [{ id := 0, port := "/dev/ttyUSB0", numClients := (2 : Int)
           started := true, finished := false }] :=
  ⟨(C2_acquire_refcount "/dev/ttyUSB0" 2 (by decide)).1,
   (C2_acquire_refcount "/dev/ttyUSB0" 2 (by decide)).2.1⟩
